import Mathlib

/-!
Verification of the byemail HTTP server module (`byemail/httpserver.py`).

The handlers are pure glue over collaborators (`storage`, `account_manager`,
`sanic_auth`); we embed them shallowly:

* Python JSON-ish objects (mails, mailboxes, attachments) become the
  inductive `Value`; dicts are association lists with Python dict
  update-in-place semantics (`alset` replaces the binding of an existing
  key and otherwise appends).
* Each route handler becomes a Lean function whose extra parameters stand
  for the results of the awaited collaborator calls (for example the mail
  dict returned by `storage.get_mail`), and whose result is
  `Except HttpError …` — raising `Forbidden`/`KeyError`/`TypeError`
  becomes returning the corresponding error value.
* The server-side session store (`storage.get_user_session` /
  `storage.save_user_session`, whose code is not in the exhibited file
  set) is modelled from the spec as a server-side map from session keys
  to session dicts, with `defaultdict(dict)` lookup semantics and the
  looked-up session shared (aliased) with the request.
-/

namespace Byemail

/-- Python values as they appear in the JSON-ish dicts the handlers
manipulate.  `vDt iso` stands for a `datetime.datetime` object,
represented by its ISO-8601 rendering (`isoformat()` returns exactly
this string). -/
inductive Value where
  | vNone : Value
  | vBool : Bool → Value
  | vInt : Int → Value
  | vStr : String → Value
  | vDt : String → Value
  | vList : List Value → Value
  | vDict : List (String × Value) → Value

/-- The embedding of Python `v == s` where `s` is known to be a `str`
(as in `mailbox_to_return['account'] != account.name`, where
`account.name` is a string): a Python value equals a `str` exactly when
it is the same string — values of any other type compare unequal to a
string. -/
def Value.eqStr (v : Value) (s : String) : Bool :=
  match v with
  | .vStr a => a == s
  | _ => false

theorem eqStr_iff (v : Value) (s : String) :
    Value.eqStr v s = true ↔ v = .vStr s := by
  cases v <;> simp [Value.eqStr]

/-- A Python dict with string keys. -/
abbrev DictV := List (String × Value)

/-- Dict lookup: `d.get(k)` / `d[k]` (first binding wins; `alset` keeps
keys unique so this is the Python dict lookup). -/
def alget {α : Type} (d : List (String × α)) (k : String) : Option α :=
  match d with
  | [] => none
  | (k', v) :: rest => if k' = k then some v else alget rest k

/-- Dict update `d[k] = v`: replace the binding of `k` in place if it
exists, otherwise append it (Python dicts keep insertion order). -/
def alset {α : Type} (d : List (String × α)) (k : String) (v : α) :
    List (String × α) :=
  match d with
  | [] => [(k, v)]
  | (k', v') :: rest =>
      if k' = k then (k, v) :: rest else (k', v') :: alset rest k v

/-- Dict removal `d.pop(k, None)`.  Python dicts have unique keys; on the
raw association list this is removal of every binding of `k`. -/
def alpop {α : Type} (d : List (String × α)) (k : String) :
    List (String × α) :=
  match d with
  | [] => []
  | (k', v') :: rest =>
      if k' = k then alpop rest k else (k', v') :: alpop rest k

theorem alget_alset_self {α : Type} (d : List (String × α)) (k : String)
    (v : α) : alget (alset d k v) k = some v := by
  induction d with
  | nil => simp [alget, alset]
  | cons hd tl ih =>
      obtain ⟨k', v'⟩ := hd
      by_cases h : k' = k <;> simp [alget, alset, h, ih]

theorem alget_alset_ne {α : Type} (d : List (String × α)) (k k' : String)
    (v : α) (hne : k' ≠ k) : alget (alset d k v) k' = alget d k' := by
  have hkk : k ≠ k' := Ne.symm hne
  induction d with
  | nil => simp [alget, alset, hkk]
  | cons hd tl ih =>
      obtain ⟨k₀, v₀⟩ := hd
      by_cases h : k₀ = k
      · subst h
        simp [alget, alset, hkk]
      · by_cases h' : k₀ = k' <;> simp [alget, alset, h, h', hne, ih]

theorem alget_alpop_self {α : Type} (d : List (String × α)) (k : String) :
    alget (alpop d k) k = none := by
  induction d with
  | nil => simp [alget, alpop]
  | cons hd tl ih =>
      obtain ⟨k₀, v₀⟩ := hd
      by_cases h : k₀ = k <;> simp [alget, alpop, h, ih]

/-- Python truthiness (`if x:`) for the values we model. -/
def Value.truthy : Value → Bool
  | .vNone => false
  | .vBool b => b
  | .vInt n => n != 0
  | .vStr s => s ≠ ""
  | .vDt _ => true
  | .vList xs => !xs.isEmpty
  | .vDict d => !d.isEmpty

/-- Python `str(x)` as used by `'…'.format(…)` in the handlers.  Only the
scalar cases are exercised by the code (attachment `index` values and
`filename` strings); the collection cases are placeholders. -/
def Value.pyStr : Value → String
  | .vNone => "None"
  | .vBool b => if b then "True" else "False"
  | .vInt n => toString n
  | .vStr s => s
  | .vDt iso => iso
  | .vList _ => "<list>"
  | .vDict _ => "<dict>"

/-- The ways a handler run can terminate abnormally: `sanic` `Forbidden`
(the only error the handlers raise on purpose), or an uncaught Python
`KeyError` / `TypeError` from a malformed stored object. -/
inductive HttpError where
  | forbidden : String → HttpError
  | keyError : String → HttpError
  | typeError : HttpError
deriving DecidableEq

/-- Python subscript `d[k]`: `KeyError` when the key is absent. -/
def getItem (d : DictV) (k : String) : Except HttpError Value :=
  match alget d k with
  | some v => .ok v
  | none => .error (.keyError k)

/-! ### Session keys (`gen_session_key`, httpserver.py lines 27-28)

`uuid.uuid4().hex` is the 32-nibble big-endian lowercase-hex rendering of
a random 128-bit value; we model the randomness as a `Nat` argument. -/

/-- One lowercase hexadecimal digit. -/
def hexDigit (n : Nat) : Char :=
  if n < 10 then Char.ofNat (48 + n) else Char.ofNat (87 + n)

/-- Fixed-width big-endian hexadecimal rendering (`w` nibbles). -/
def toHexFixed : Nat → Nat → List Char
  | 0, _ => []
  | w + 1, r => toHexFixed w (r / 16) ++ [hexDigit (r % 16)]

/-- The `gen_session_key()` function, i.e. `uuid.uuid4().hex`, with the
128-bit random draw made explicit as `r`. -/
def gen_session_key (r : Nat) : String :=
  String.mk (toHexFixed 32 r)

theorem toHexFixed_length (w r : Nat) : (toHexFixed w r).length = w := by
  induction w generalizing r with
  | zero => simp [toHexFixed]
  | succ w ih => simp [toHexFixed, ih]

/-- Whether a character is a lowercase hexadecimal digit
(`0`-`9` or `a`-`f`). -/
def isHexChar (c : Char) : Bool :=
  (48 ≤ c.toNat && c.toNat ≤ 57) || (97 ≤ c.toNat && c.toNat ≤ 102)

theorem hexDigit_isHexChar (n : Nat) (h : n < 16) :
    isHexChar (hexDigit n) = true := by
  interval_cases n <;> decide

theorem toHexFixed_all_isHexChar (w r : Nat) :
    (toHexFixed w r).all isHexChar = true := by
  induction w generalizing r with
  | zero => simp [toHexFixed]
  | succ w ih =>
      simp [toHexFixed, List.all_append, ih]
      exact hexDigit_isHexChar _ (Nat.mod_lt _ (by norm_num))

theorem toHexFixed_mod (w r : Nat) :
    toHexFixed w r = toHexFixed w (r % 16 ^ w) := by
  induction w generalizing r with
  | zero => simp [toHexFixed]
  | succ w ih =>
      have h16 : (16 : Nat) ∣ 16 ^ (w + 1) := dvd_pow_self 16 (Nat.succ_ne_zero w)
      have hmod : r % 16 ^ (w + 1) % 16 = r % 16 := Nat.mod_mod_of_dvd r h16
      have hdiv : r % 16 ^ (w + 1) / 16 = r / 16 % 16 ^ w := by
        have : (16 : Nat) ^ (w + 1) = 16 * 16 ^ w := by ring
        rw [this, Nat.mod_mul_right_div_self]
      rw [toHexFixed, toHexFixed, hmod, hdiv, ih (r / 16)]

/-! ### Sessions and authentication

The server-side session store (`storage.get_user_session` /
`storage.save_user_session`) is not part of the exhibited file set; it is
modelled from the spec ("opaque session tokens stored server-side",
"looked up server-side per request", `sessions = defaultdict(dict)`):
a map from session keys to session dicts, where looking up an unknown key
yields an empty session, and the looked-up dict is the stored one. -/

/-- A session dict: maps session fields to account names. -/
abbrev Session := List (String × String)

/-- The server-side session store. -/
abbrev Sessions := List (String × Session)

/-- The `sanic_auth` session field under which the logged-in account's
name is stored (`auth.auth_session_key`). -/
def auth_session_key : String := "_auth"

/-- Modelled from the spec: `storage.get_user_session(key)` — the
server-side session looked up by key, an empty session for an unknown
key (`defaultdict(dict)` semantics). -/
def get_user_session (sessions : Sessions) (key : String) : Session :=
  (alget sessions key).getD []

/-- Modelled from the spec: `storage.save_user_session(key, session)`. -/
def save_user_session (sessions : Sessions) (key : String) (s : Session) :
    Sessions :=
  alset sessions key s

/-- The `add_session_to_request` request middleware (httpserver.py lines
52-60): no (or Python-falsy, i.e. empty) `session_key` cookie gives the
empty session, otherwise the server-side session for that key. -/
def add_session_to_request (sessions : Sessions) (cookie : Option String) :
    Session :=
  match cookie with
  | none => []
  | some k => if k = "" then [] else get_user_session sessions k

/-- A user account as the handlers see it: its `name` and the JSON
profile produced by `account.to_json()` (the `account` module is an
unexhibited collaborator, so the profile is opaque). -/
structure Account where
  name : String
  to_json : Value

/-- The `sanic_auth` `Auth.current_user` lookup: read the account name stored in
the request session under `auth_session_key` and load the account
through the user loader (`account_manager.get`, passed in as
`load_user`). -/
def current_user (load_user : String → Option Account)
    (session : Session) : Option Account :=
  match alget session auth_session_key with
  | some token => load_user token
  | none => none

/-- The `@auth.login_required(handle_no_auth=handle_no_auth)` guard: a
request whose session does not resolve to an account is answered by
`handle_no_auth` (httpserver.py lines 30-31), which raises `Forbidden`. -/
def login_required_check (load_user : String → Option Account)
    (session : Session) : Except HttpError Account :=
  match current_user load_user session with
  | some u => .ok u
  | none => .error (.forbidden "This route need authentification")

/-- Successful outcome of the `/login` handler. -/
structure LoginOk where
  sessions : Sessions
  body : Value
  cookie : String

/-- The `/login` handler (httpserver.py lines 70-89).  `r` is the random
draw consumed by `gen_session_key`; `account` is the result of
`account_manager.authenticate(credentials)` (an unexhibited
collaborator), `None` meaning the credentials do not authenticate. -/
def login (r : Nat) (account : Option Account) (sessions : Sessions) :
    Except HttpError LoginOk :=
  match account with
  | some acct =>
      let session_key := gen_session_key r
      let session := get_user_session sessions session_key
      let session := alset session auth_session_key acct.name
      let sessions := save_user_session sessions session_key session
      .ok { sessions := sessions, body := acct.to_json, cookie := session_key }
  | none => .error (.forbidden "Authentification failed. Check your credentials.")

/-- Successful outcome of the `/logout` handler. -/
structure LogoutOk where
  sessions : Sessions
  request_session : Session
  body : Value
  cookie : String

/-- The `/logout` handler (httpserver.py lines 91-98), including the
request middleware and the `login_required` guard.  `sanic_auth`'s
`logout_user` pops `auth_session_key` from the request's session dict;
that dict is the server-side stored one (modelled from the spec's
server-side session store), so the pop is applied to the store as
well.  The handler then empties the request session and generates a
fresh cookie with random draw `r`. -/
def logout (load_user : String → Option Account) (r : Nat)
    (sessions : Sessions) (cookie : Option String) :
    Except HttpError LogoutOk :=
  let req_session := add_session_to_request sessions cookie
  match login_required_check load_user req_session with
  | .error e => .error e
  | .ok _ =>
      let popped := alpop req_session auth_session_key
      let sessions' :=
        match cookie with
        | some k => if k = "" then sessions else alset sessions k popped
        | none => sessions
      .ok { sessions := sessions'
            request_session := []
            body := .vStr "Ok"
            cookie := gen_session_key r }

/-! ### Mailbox and mail handlers (httpserver.py lines 109-175, 196-224)

Each handler takes the result of its awaited `storage` call as an
argument (the storage engine is an unexhibited collaborator). -/

/-- The body of the date-fixup loops: if `d[k]` is a `datetime`, replace
it by its `isoformat()` string, otherwise leave the dict unchanged
(`KeyError` when `k` is absent, as in Python). -/
def fix_date_field (k : String) (d : DictV) : Except HttpError DictV := do
  let dv ← getItem d k
  match dv with
  | .vDt iso => .ok (alset d k (.vStr iso))
  | _ => .ok d

/-- One iteration of the loop in `mailboxes` (lines 113-115): fix up the
`last_message` field of one mailbox entry. -/
def fix_mailbox_last_message (m : Value) : Except HttpError Value :=
  match m with
  | .vDict d => (fix_date_field "last_message" d).map .vDict
  | _ => .error .typeError

/-- One iteration of the loop in `mailbox` (lines 124-126): fix up the
`date` field of one message. -/
def fix_message_date (m : Value) : Except HttpError Value :=
  match m with
  | .vDict d => (fix_date_field "date" d).map .vDict
  | _ => .error .typeError

/-- A Python `for` loop that rewrites each element in order, the first
raised exception aborting the request. -/
def for_each_fix (f : Value → Except HttpError Value) :
    List Value → Except HttpError (List Value)
  | [] => .ok []
  | m :: rest => do
      let m' ← f m
      let rest' ← for_each_fix f rest
      .ok (m' :: rest')

/-- The `/api/mailboxes` handler (lines 109-116): `mbxs` is the result of
`storage.get_mailboxes(account)`; every entry whose `last_message` is a
`datetime` gets it replaced by its ISO string. -/
def mailboxes (mbxs : List Value) : Except HttpError (List Value) :=
  for_each_fix fix_mailbox_last_message mbxs

/-- The `/api/mailbox/<mailbox_id>` handler (lines 118-127):
`mailbox_to_return` is the result of `storage.get_mailbox(mailbox_id)`.
`Forbidden` when its `account` field differs from the authenticated
account's name; otherwise the `date` of every message is fixed up and
the mailbox returned. -/
def mailbox (account : String) (mailbox_to_return : DictV) :
    Except HttpError DictV := do
  let acc ← getItem mailbox_to_return "account"
  if acc.eqStr account then do
    let msgs ← getItem mailbox_to_return "messages"
    match msgs with
    | .vList ms => do
        let ms' ← for_each_fix fix_message_date ms
        .ok (alset mailbox_to_return "messages" (.vList ms'))
    | _ => .error .typeError
  else
    .error (.forbidden "You don't have permission to see this mailbox.")

/-- One iteration of the attachment loop in `mail` (lines 140-149).
`guess_extension` stands for `mimetypes.guess_extension`; a falsy
(absent/empty) `filename` is replaced by `file_{index}{ext}` with
`.bin` as the fallback extension, and every attachment gets a `url`
field `/api/mail/{mail_id}/attachment/{index}/{filename}`. -/
def fix_attachment (mail_id : String)
    (guess_extension : String → Option String) (att : Value) :
    Except HttpError Value :=
  match att with
  | .vDict d => do
      let d1 ←
        if ((alget d "filename").map Value.truthy).getD false then
          Except.ok d
        else do
          let t ← getItem d "type"
          match t with
          | .vStr ts =>
              let guessed_ext :=
                match guess_extension ts with
                | some e => if e = "" then ".bin" else e
                | none => ".bin"
              let idx ← getItem d "index"
              Except.ok
                (alset d "filename"
                  (.vStr ("file_" ++ idx.pyStr ++ guessed_ext)))
          | _ => .error .typeError
      let idx ← getItem d1 "index"
      let fn ← getItem d1 "filename"
      .ok (.vDict (alset d1 "url"
        (.vStr ("/api/mail/" ++ mail_id ++ "/attachment/" ++ idx.pyStr
          ++ "/" ++ fn.pyStr))))
  | _ => .error .typeError

/-- The `/api/mail/<mail_id>` handler (lines 129-151): `mail_to_return`
is the result of `storage.get_mail(mail_id)`.  `Forbidden` on an
ownership mismatch; otherwise the `date` is fixed up and the
attachments renamed and given URLs. -/
def mail (mail_id : String) (account : String)
    (guess_extension : String → Option String) (mail_to_return : DictV) :
    Except HttpError DictV := do
  let acc ← getItem mail_to_return "account"
  if acc.eqStr account then do
    let m1 ← fix_date_field "date" mail_to_return
    let atts ← getItem m1 "attachments"
    match atts with
    | .vList as => do
        let as' ← for_each_fix (fix_attachment mail_id guess_extension) as
        .ok (alset m1 "attachments" (.vList as'))
    | _ => .error .typeError
  else
    .error (.forbidden "You don't have permission to see this mail.")

/-- The `/api/mail/<mail_id>/mark_read` handler (lines 153-165):
`mail_to_mark` is the result of `storage.get_mail(mail_id)`.  On
success the pair holds the dict passed to `storage.update_mail` and the
dict serialized as the response body (the same object in the code). -/
def mail_mark_read (account : String) (mail_to_mark : DictV) :
    Except HttpError (DictV × DictV) := do
  let acc ← getItem mail_to_mark "account"
  if acc.eqStr account then
    let m := alset mail_to_mark "unread" (.vBool false)
    .ok (m, m)
  else
    .error (.forbidden "You don't have permission to see this mail.")

/-- The `/api/mail/<mail_id>/attachment/<att_index>/<filename>` handler
(lines 167-175): `attachment` and `att_content` are the results of
`storage.get_mail_attachment(mail_id, int(att_index))`.  On success the
attachment bytes are streamed with the attachment's `type` as content
type.  Note: the handler receives `account` but never consults it. -/
def mail_download_attachment (account : String) (attachment : DictV)
    (att_content : String) : Except HttpError (String × Value) := do
  let t ← getItem attachment "type"
  .ok (att_content, t)

/-- The ownership gate of the `/api/mail/<mail_id>/resend` handler (lines
196-212): `mail_to_resend` is the result of `storage.get_mail(mail_id)`.
On success the handler goes on to call `resend_mail` (an unexhibited
collaborator) with the returned dict. -/
def mail_resend (account : String) (mail_to_resend : DictV) :
    Except HttpError DictV := do
  let acc ← getItem mail_to_resend "account"
  if acc.eqStr account then
    .ok mail_to_resend
  else
    .error (.forbidden "You don't have permission to resend this mail.")

/-- The `/api/contacts/search` handler (lines 214-224): `search` stands
for `storage.contacts_search(account, ·)`; `text_arg` is
`request.args.get('text')`.  The Bool records whether the storage
search was called. -/
def contacts_search (search : String → List Value)
    (text_arg : Option String) : List Value × Bool :=
  let text := text_arg.getD ""
  if text = "" then ([], false) else (search text, true)

/-! ### Helper lemmas -/

theorem exceptBind_ok {ε α β : Type} (a : α) (f : α → Except ε β) :
    (Except.ok a >>= f) = f a := rfl

theorem exceptBind_error {ε α β : Type} (e : ε) (f : α → Except ε β) :
    ((Except.error e : Except ε α) >>= f) = .error e := rfl

theorem getItem_of_alget (d : DictV) (k : String) (v : Value)
    (h : alget d k = some v) : getItem d k = .ok v := by
  simp [getItem, h]

theorem getItem_of_alget_none (d : DictV) (k : String)
    (h : alget d k = none) : getItem d k = .error (.keyError k) := by
  simp [getItem, h]

theorem getItem_ok (d : DictV) (k : String) (v : Value)
    (h : getItem d k = .ok v) : alget d k = some v := by
  unfold getItem at h
  cases ha : alget d k with
  | some w => rw [ha] at h; cases h; rfl
  | none => rw [ha] at h; cases h

theorem for_each_fix_forall2 (f : Value → Except HttpError Value) :
    ∀ (xs ys : List Value), for_each_fix f xs = .ok ys →
      List.Forall₂ (fun x y => f x = .ok y) xs ys := by
  intro xs
  induction xs with
  | nil =>
      intro ys h
      cases h
      exact List.Forall₂.nil
  | cons x xs ih =>
      intro ys h
      unfold for_each_fix at h
      cases hf : f x with
      | error e => rw [hf, exceptBind_error] at h; cases h
      | ok m' =>
          rw [hf, exceptBind_ok] at h
          cases hr : for_each_fix f xs with
          | error e => rw [hr, exceptBind_error] at h; cases h
          | ok rest' =>
              rw [hr, exceptBind_ok] at h
              cases h
              exact List.Forall₂.cons hf (ih rest' hr)

theorem fix_date_field_dt (k : String) (d : DictV) (iso : String)
    (h : alget d k = some (.vDt iso)) :
    fix_date_field k d = .ok (alset d k (.vStr iso)) := by
  simp [fix_date_field, getItem_of_alget d k _ h, exceptBind_ok]

theorem fix_date_field_not_dt (k : String) (d : DictV) (v : Value)
    (h : alget d k = some v) (hv : ∀ iso, v ≠ .vDt iso) :
    fix_date_field k d = .ok d := by
  rw [fix_date_field, getItem_of_alget d k v h, exceptBind_ok]
  cases v with
  | vDt iso => exact absurd rfl (hv iso)
  | vNone => rfl
  | vBool b => rfl
  | vInt n => rfl
  | vStr s => rfl
  | vList xs => rfl
  | vDict d' => rfl

theorem mail_ok_shape (mail_id account : String)
    (guess : String → Option String) (d : DictV) (out : DictV)
    (h : mail mail_id account guess d = .ok out) :
    ∃ (m1 : DictV) (as as' : List Value),
      fix_date_field "date" d = .ok m1 ∧
      alget m1 "attachments" = some (.vList as) ∧
      for_each_fix (fix_attachment mail_id guess) as = .ok as' ∧
      out = alset m1 "attachments" (.vList as') := by
  unfold mail at h
  cases ha : alget d "account" with
  | none => rw [getItem_of_alget_none d "account" ha, exceptBind_error] at h; cases h
  | some v =>
      rw [getItem_of_alget d "account" v ha, exceptBind_ok] at h
      cases heq : v.eqStr account with
      | false => rw [heq] at h; simp at h
      | true =>
          rw [heq] at h
          simp only [if_true] at h
          cases hfd : fix_date_field "date" d with
          | error e => rw [hfd, exceptBind_error] at h; cases h
          | ok m1 =>
              rw [hfd, exceptBind_ok] at h
              cases hatts : alget m1 "attachments" with
              | none =>
                  rw [getItem_of_alget_none m1 "attachments" hatts,
                    exceptBind_error] at h
                  cases h
              | some av =>
                  rw [getItem_of_alget m1 "attachments" av hatts,
                    exceptBind_ok] at h
                  cases av with
                  | vList as =>
                      replace h :
                          (for_each_fix (fix_attachment mail_id guess) as >>=
                            fun as' =>
                              Except.ok (alset m1 "attachments" (.vList as'))) =
                            Except.ok out := h
                      cases hfe : for_each_fix (fix_attachment mail_id guess) as with
                      | error e => rw [hfe, exceptBind_error] at h; cases h
                      | ok as' =>
                          rw [hfe, exceptBind_ok] at h
                          cases h
                          exact ⟨m1, as, as', rfl, hatts, hfe, rfl⟩
                  | vNone => cases h
                  | vBool b => cases h
                  | vInt n => cases h
                  | vStr s => cases h
                  | vDt iso => cases h
                  | vDict d' => cases h

theorem exceptMap_ok {ε α β : Type} (a : α) (f : α → β) :
    (Except.ok a : Except ε α).map f = .ok (f a) := rfl

theorem mailbox_ok_shape (account : String) (d out : DictV)
    (h : mailbox account d = .ok out) :
    ∃ (ms ms' : List Value),
      alget d "messages" = some (.vList ms) ∧
      for_each_fix fix_message_date ms = .ok ms' ∧
      out = alset d "messages" (.vList ms') := by
  unfold mailbox at h
  cases ha : alget d "account" with
  | none => rw [getItem_of_alget_none d "account" ha, exceptBind_error] at h; cases h
  | some v =>
      rw [getItem_of_alget d "account" v ha, exceptBind_ok] at h
      cases heq : v.eqStr account with
      | false => rw [heq] at h; simp at h
      | true =>
          rw [heq] at h
          simp only [if_true] at h
          cases hmsgs : alget d "messages" with
          | none =>
              rw [getItem_of_alget_none d "messages" hmsgs,
                exceptBind_error] at h
              cases h
          | some mv =>
              rw [getItem_of_alget d "messages" mv hmsgs, exceptBind_ok] at h
              cases mv with
              | vList ms =>
                  replace h :
                      (for_each_fix fix_message_date ms >>= fun ms' =>
                        Except.ok (alset d "messages" (.vList ms'))) =
                        Except.ok out := h
                  cases hfe : for_each_fix fix_message_date ms with
                  | error e => rw [hfe, exceptBind_error] at h; cases h
                  | ok ms' =>
                      rw [hfe, exceptBind_ok] at h
                      cases h
                      exact ⟨ms, ms', rfl, hfe, rfl⟩
              | vNone => cases h
              | vBool b => cases h
              | vInt n => cases h
              | vStr s => cases h
              | vDt iso => cases h
              | vDict d' => cases h

/-! ### Claim theorems -/

/-- C8: an authenticated GET of `/api/contacts/search` with the `text`
query parameter absent or empty returns the empty JSON list and never
calls the storage contact search. -/
theorem contacts_search_empty_text (search : String → List Value) :
    contacts_search search none = ([], false) ∧
    contacts_search search (some "") = ([], false) :=
  ⟨rfl, rfl⟩

/-- C4: every authentication or authorization failure surfaces as
`Forbidden`: a `/login` POST whose credentials do not authenticate
raises `Forbidden`, a request to a `login_required` route without a
valid authenticated session raises `Forbidden`, and these handlers
produce no other error kind for those failures. -/
theorem auth_failures_forbidden :
    (∀ (r : Nat) (sessions : Sessions),
        login r none sessions =
          .error (.forbidden "Authentification failed. Check your credentials.")) ∧
    (∀ (load_user : String → Option Account) (s : Session),
        current_user load_user s = none →
        login_required_check load_user s =
          .error (.forbidden "This route need authentification")) ∧
    (∀ (r : Nat) (a : Option Account) (sessions : Sessions) (e : HttpError),
        login r a sessions = .error e →
        e = .forbidden "Authentification failed. Check your credentials.") ∧
    (∀ (load_user : String → Option Account) (s : Session) (e : HttpError),
        login_required_check load_user s = .error e →
        e = .forbidden "This route need authentification") := by
  refine ⟨fun r sessions => rfl, ?_, ?_, ?_⟩
  · intro load_user s h
    simp [login_required_check, h]
  · intro r a sessions e h
    cases a with
    | some acct => simp [login] at h
    | none => simp [login] at h; exact h.symm
  · intro load_user s e h
    unfold login_required_check at h
    cases hc : current_user load_user s with
    | some u => rw [hc] at h; cases h
    | none => rw [hc] at h; cases h; rfl

/-- C4 witness: both failure paths at concrete inputs. -/
theorem auth_failures_forbidden_witness :
    login 0 none [] =
      .error (.forbidden "Authentification failed. Check your credentials.") ∧
    login_required_check (fun _ => none) [] =
      .error (.forbidden "This route need authentification") :=
  ⟨auth_failures_forbidden.1 0 [],
   auth_failures_forbidden.2.1 (fun _ => none) [] rfl⟩

/-- C5: a `/login` POST whose credentials authenticate generates a fresh
session key, stores the account's name in the server-side session under
that key, returns the account profile as the body, and sets the new key
as the `session_key` cookie. -/
theorem login_success (r : Nat) (acct : Account) (sessions : Sessions) :
    ∃ out : LoginOk,
      login r (some acct) sessions = .ok out ∧
      alget (get_user_session out.sessions (gen_session_key r))
        auth_session_key = some acct.name ∧
      out.body = acct.to_json ∧
      out.cookie = gen_session_key r := by
  refine ⟨_, rfl, ?_, rfl, rfl⟩
  simp only [login, save_user_session, get_user_session, alget_alset_self,
    Option.getD_some]

/-- C2: after an authenticated GET of `/logout`, the old session token no
longer maps to an authenticated session — the server-side session looked
up by the old token has no logged-in account, so a later request bearing
that token fails the `login_required` guard with `Forbidden` — the
request's session is emptied, and the response sets a freshly generated
`session_key` cookie. -/
theorem logout_invalidates_session
    (load_user : String → Option Account) (r : Nat) (sessions : Sessions)
    (k : String) (out : LogoutOk)
    (h : logout load_user r sessions (some k) = .ok out) :
    alget (get_user_session out.sessions k) auth_session_key = none ∧
    login_required_check load_user
        (add_session_to_request out.sessions (some k)) =
      .error (.forbidden "This route need authentification") ∧
    out.request_session = [] ∧
    out.cookie = gen_session_key r := by
  by_cases hk : k = ""
  · subst hk
    simp [logout, add_session_to_request, login_required_check,
      current_user, alget] at h
  · rw [logout] at h
    simp only [add_session_to_request, if_neg hk] at h
    cases hc : login_required_check load_user (get_user_session sessions k) with
    | error e =>
        rw [hc] at h
        cases h
    | ok u =>
        rw [hc] at h
        simp only [if_neg hk] at h
        cases h
        refine ⟨?_, ?_, rfl, rfl⟩
        · simp [get_user_session, alget_alset_self, alget_alpop_self]
        · simp [add_session_to_request, if_neg hk, get_user_session,
            alget_alset_self, login_required_check, current_user,
            alget_alpop_self]

/-- C2 witness: logging out with token `"tok"` from a store in which
`"tok"` is an authenticated session. -/
theorem logout_invalidates_session_witness :
    alget
      (get_user_session
        (LogoutOk.sessions
          { sessions := [("tok", ([] : Session))]
            request_session := []
            body := .vStr "Ok"
            cookie := gen_session_key 0 }) "tok") auth_session_key = none ∧
    login_required_check
        (fun n => if n = "alice" then some ⟨"alice", .vNone⟩ else none)
        (add_session_to_request
          (LogoutOk.sessions
            { sessions := [("tok", ([] : Session))]
              request_session := []
              body := .vStr "Ok"
              cookie := gen_session_key 0 }) (some "tok")) =
      .error (.forbidden "This route need authentification") ∧
    LogoutOk.request_session
      { sessions := [("tok", ([] : Session))]
        request_session := []
        body := .vStr "Ok"
        cookie := gen_session_key 0 } = [] ∧
    LogoutOk.cookie
      { sessions := [("tok", ([] : Session))]
        request_session := []
        body := .vStr "Ok"
        cookie := gen_session_key 0 } = gen_session_key 0 :=
  logout_invalidates_session
    (fun n => if n = "alice" then some ⟨"alice", .vNone⟩ else none) 0
    [("tok", [(auth_session_key, "alice")])] "tok" _ rfl

/-- C3 counterexample: a `session_key` cookie that is present but empty.
The middleware gives the empty session even when the server-side store
has a (non-empty) session under the key `""`, so "present implies
server-side lookup" fails. -/
theorem session_middleware_counterexample :
    add_session_to_request [("", [(auth_session_key, "alice")])] (some "") =
      [] ∧
    get_user_session [("", [(auth_session_key, "alice")])] "" =
      [(auth_session_key, "alice")] ∧
    [(auth_session_key, "alice")] ≠ ([] : Session) :=
  ⟨rfl, rfl, by simp⟩

/-- C3 (amended): an absent — or present but empty — `session_key` cookie
yields the empty session; a present non-empty cookie yields the
server-side stored session looked up by that key; and every generated
session token is the 32-character lowercase-hexadecimal rendering of a
128-bit value. -/
theorem session_middleware_amended :
    (∀ sessions : Sessions, add_session_to_request sessions none = []) ∧
    (∀ sessions : Sessions,
        add_session_to_request sessions (some "") = []) ∧
    (∀ (sessions : Sessions) (k : String), k ≠ "" →
        add_session_to_request sessions (some k) =
          get_user_session sessions k) ∧
    (∀ r : Nat,
        (gen_session_key r).length = 32 ∧
        (gen_session_key r).data.all isHexChar = true ∧
        gen_session_key r = gen_session_key (r % 2 ^ 128)) := by
  refine ⟨fun sessions => rfl, fun sessions => rfl, ?_, ?_⟩
  · intro sessions k hk
    simp [add_session_to_request, hk]
  · intro r
    have h216 : (2 : Nat) ^ 128 = 16 ^ 32 := by norm_num
    refine ⟨?_, toHexFixed_all_isHexChar 32 r, ?_⟩
    · show (toHexFixed 32 r).length = 32
      exact toHexFixed_length 32 r
    · rw [gen_session_key, gen_session_key, h216, ← toHexFixed_mod]

/-- C3 amended witness: a non-empty cookie is looked up server-side. -/
theorem session_middleware_amended_witness :
    add_session_to_request [("tok", [(auth_session_key, "alice")])]
        (some "tok") =
      get_user_session [("tok", [(auth_session_key, "alice")])] "tok" :=
  session_middleware_amended.2.2.1 [("tok", [(auth_session_key, "alice")])]
    "tok" (by simp)

/-- C1 counterexample: the attachment-download handler performs no
ownership check.  With the stored resource recording account `"alice"`
and the authenticated caller named `"bob"`, the handler streams the
attachment bytes instead of raising `Forbidden`. -/
theorem ownership_check_counterexample :
    mail_download_attachment "bob"
        [("account", .vStr "alice"), ("type", .vStr "text/plain")]
        "secret bytes" =
      .ok ("secret bytes", .vStr "text/plain") ∧
    "alice" ≠ "bob" :=
  ⟨rfl, by simp⟩

/-- C1 (amended): the mailbox fetch, single-message fetch, mark-read and
resend handlers compare the stored resource's `account` field to the
authenticated caller's name, raise `Forbidden` whenever they differ, and
succeed only when they are equal; the attachment-download handler
performs no such check. -/
theorem ownership_checks (name mail_id : String) (d : DictV)
    (guess : String → Option String) :
    (∀ v : Value, alget d "account" = some v → v ≠ .vStr name →
      mailbox name d =
        .error (.forbidden "You don't have permission to see this mailbox.") ∧
      mail mail_id name guess d =
        .error (.forbidden "You don't have permission to see this mail.") ∧
      mail_mark_read name d =
        .error (.forbidden "You don't have permission to see this mail.") ∧
      mail_resend name d =
        .error (.forbidden "You don't have permission to resend this mail.")) ∧
    (∀ out, mailbox name d = .ok out →
      alget d "account" = some (.vStr name)) ∧
    (∀ out, mail mail_id name guess d = .ok out →
      alget d "account" = some (.vStr name)) ∧
    (∀ out, mail_mark_read name d = .ok out →
      alget d "account" = some (.vStr name)) ∧
    (∀ out, mail_resend name d = .ok out →
      alget d "account" = some (.vStr name)) := by
  have hget : ∀ v : Value, alget d "account" = some v →
      getItem d "account" = .ok v := fun v hv => getItem_of_alget _ _ _ hv
  constructor
  · intro v hv hne
    have hfalse : v.eqStr name = false := by
      cases heq : v.eqStr name
      · rfl
      · exact absurd ((eqStr_iff v name).mp heq) hne
    refine ⟨?_, ?_, ?_, ?_⟩ <;>
      simp [mailbox, mail, mail_mark_read, mail_resend, hget v hv,
        exceptBind_ok, hfalse]
  · have hok : ∀ {β : Type} (body : Value → Except HttpError β)
        (msg : String) (out : β),
        (getItem d "account" >>= fun acc =>
          if acc.eqStr name then body acc
          else .error (.forbidden msg)) = .ok out →
        alget d "account" = some (.vStr name) := by
      intro β body msg out h
      cases ha : alget d "account" with
      | none => rw [getItem_of_alget_none d "account" ha] at h; cases h
      | some v =>
          rw [getItem_of_alget d "account" v ha] at h
          rw [exceptBind_ok] at h
          cases heq : v.eqStr name with
          | false => rw [heq] at h; simp at h
          | true =>
              have hv : v = .vStr name := (eqStr_iff v name).mp heq
              rw [hv]
    exact ⟨fun out h => hok _ _ out h, fun out h => hok _ _ out h,
      fun out h => hok _ _ out h, fun out h => hok _ _ out h⟩

/-- C1 amended witness: each checking handler rejects a caller named
`"bob"` fetching a resource owned by `"alice"`. -/
theorem ownership_checks_witness :
    mailbox "bob" [("account", Value.vStr "alice")] =
      .error (.forbidden "You don't have permission to see this mailbox.") ∧
    mail "id1" "bob" (fun _ => none) [("account", Value.vStr "alice")] =
      .error (.forbidden "You don't have permission to see this mail.") ∧
    mail_mark_read "bob" [("account", Value.vStr "alice")] =
      .error (.forbidden "You don't have permission to see this mail.") ∧
    mail_resend "bob" [("account", Value.vStr "alice")] =
      .error (.forbidden "You don't have permission to resend this mail.") :=
  (ownership_checks "bob" "id1" [("account", Value.vStr "alice")]
      (fun _ => none)).1
    (Value.vStr "alice") rfl
    (by intro h; injection h with h'; exact absurd h' (by simp))

/-- C6: for an authenticated mark-read request on a mail owned by the
caller, the handler sets the mail's `unread` field to `False`, passes
the updated mail to `storage.update_mail`, and returns the same updated
mail as the response body. -/
theorem mark_read_clears_unread (account : String) (d : DictV)
    (h : alget d "account" = some (.vStr account)) :
    mail_mark_read account d =
      .ok (alset d "unread" (.vBool false), alset d "unread" (.vBool false)) ∧
    alget (alset d "unread" (.vBool false)) "unread" =
      some (.vBool false) := by
  constructor
  · simp [mail_mark_read, getItem_of_alget d "account" _ h, exceptBind_ok,
      Value.eqStr]
  · exact alget_alset_self d "unread" (.vBool false)

/-- C6 witness: marking a concrete unread mail owned by the caller. -/
theorem mark_read_clears_unread_witness :
    mail_mark_read "alice"
        [("account", Value.vStr "alice"), ("unread", Value.vBool true)] =
      .ok
        (alset [("account", Value.vStr "alice"), ("unread", Value.vBool true)]
          "unread" (Value.vBool false),
         alset [("account", Value.vStr "alice"), ("unread", Value.vBool true)]
          "unread" (Value.vBool false)) ∧
    alget
        (alset [("account", Value.vStr "alice"), ("unread", Value.vBool true)]
          "unread" (Value.vBool false)) "unread" =
      some (Value.vBool false) :=
  mark_read_clears_unread "alice"
    [("account", Value.vStr "alice"), ("unread", Value.vBool true)] rfl

/-- C9: the mark-read operation modifies only the `unread` field — the
object passed to `storage.update_mail` is the object returned to the
caller, its `unread` field is `False`, and every other field is exactly
the fetched mail's. -/
theorem mark_read_frame (account : String) (d : DictV)
    (out : DictV × DictV) (h : mail_mark_read account d = .ok out) :
    out.1 = out.2 ∧
    alget out.1 "unread" = some (.vBool false) ∧
    ∀ k : String, k ≠ "unread" → alget out.1 k = alget d k := by
  unfold mail_mark_read at h
  cases ha : alget d "account" with
  | none =>
      rw [getItem_of_alget_none d "account" ha] at h
      cases h
  | some v =>
      rw [getItem_of_alget d "account" v ha, exceptBind_ok] at h
      cases heq : v.eqStr account with
      | false => rw [heq] at h; simp at h
      | true =>
          rw [heq] at h
          simp only [if_true] at h
          cases h
          exact ⟨rfl, alget_alset_self d "unread" (.vBool false),
            fun k hk => alget_alset_ne d "unread" k (.vBool false) hk⟩

/-- C9 witness: a field other than `unread` (here `account`) is unchanged
by mark-read on a concrete mail. -/
theorem mark_read_frame_witness :
    alget
        (alset [("account", Value.vStr "a"), ("unread", Value.vBool true)]
          "unread" (Value.vBool false)) "account" =
      alget [("account", Value.vStr "a"), ("unread", Value.vBool true)]
        "account" :=
  (mark_read_frame "a"
      [("account", Value.vStr "a"), ("unread", Value.vBool true)]
      (alset [("account", Value.vStr "a"), ("unread", Value.vBool true)]
        "unread" (Value.vBool false),
       alset [("account", Value.vStr "a"), ("unread", Value.vBool true)]
        "unread" (Value.vBool false)) rfl).2.2
    "account" (by simp)

/-- C7: the handlers reshape timestamps before responding — in the
mailbox listing every entry whose `last_message` is a datetime has it
replaced by its ISO-8601 string, and in the mailbox-contents and
single-message responses every `date` that is a datetime is replaced by
its ISO-8601 string; non-datetime values are left unchanged. -/
theorem timestamps_reshaped :
    (∀ (d : DictV) (iso : String),
        alget d "last_message" = some (.vDt iso) →
        fix_mailbox_last_message (.vDict d) =
          .ok (.vDict (alset d "last_message" (.vStr iso)))) ∧
    (∀ (d : DictV) (v : Value),
        alget d "last_message" = some v → (∀ iso, v ≠ .vDt iso) →
        fix_mailbox_last_message (.vDict d) = .ok (.vDict d)) ∧
    (∀ (ms out : List Value), mailboxes ms = .ok out →
        List.Forall₂ (fun m m' => fix_mailbox_last_message m = .ok m')
          ms out) ∧
    (∀ (d : DictV) (iso : String),
        alget d "date" = some (.vDt iso) →
        fix_message_date (.vDict d) =
          .ok (.vDict (alset d "date" (.vStr iso)))) ∧
    (∀ (d : DictV) (v : Value),
        alget d "date" = some v → (∀ iso, v ≠ .vDt iso) →
        fix_message_date (.vDict d) = .ok (.vDict d)) ∧
    (∀ (account : String) (d out : DictV) (ms : List Value),
        mailbox account d = .ok out →
        alget d "messages" = some (.vList ms) →
        ∃ ms', alget out "messages" = some (.vList ms') ∧
          List.Forall₂ (fun m m' => fix_message_date m = .ok m') ms ms') ∧
    (∀ (mail_id account : String) (guess : String → Option String)
        (d out : DictV),
        mail mail_id account guess d = .ok out →
        (∀ iso, alget d "date" = some (.vDt iso) →
            alget out "date" = some (.vStr iso)) ∧
        (∀ v, alget d "date" = some v → (∀ iso, v ≠ .vDt iso) →
            alget out "date" = some v)) := by
  refine ⟨?_, ?_, ?_, ?_, ?_, ?_, ?_⟩
  · intro d iso h
    rw [fix_mailbox_last_message, fix_date_field_dt _ _ _ h, exceptMap_ok]
  · intro d v h hv
    rw [fix_mailbox_last_message, fix_date_field_not_dt _ _ _ h hv,
      exceptMap_ok]
  · exact fun ms out h => for_each_fix_forall2 _ ms out h
  · intro d iso h
    rw [fix_message_date, fix_date_field_dt _ _ _ h, exceptMap_ok]
  · intro d v h hv
    rw [fix_message_date, fix_date_field_not_dt _ _ _ h hv, exceptMap_ok]
  · intro account d out ms h hms
    obtain ⟨ms₀, ms', hms₀, hfe, rfl⟩ := mailbox_ok_shape account d out h
    rw [hms] at hms₀
    injection hms₀ with hms₁
    injection hms₁ with hms₂
    subst hms₂
    exact ⟨ms', alget_alset_self d "messages" (.vList ms'),
      for_each_fix_forall2 _ ms ms' hfe⟩
  · intro mail_id account guess d out h
    obtain ⟨m1, as, as', hfd, hatts, hfe, rfl⟩ :=
      mail_ok_shape mail_id account guess d out h
    have hda : ("date" : String) ≠ "attachments" := by simp
    constructor
    · intro iso hdt
      have : fix_date_field "date" d = .ok (alset d "date" (.vStr iso)) :=
        fix_date_field_dt _ _ _ hdt
      rw [this] at hfd
      injection hfd with hm1
      subst hm1
      rw [alget_alset_ne _ "attachments" "date" _ hda]
      exact alget_alset_self d "date" (.vStr iso)
    · intro v hdv hnot
      have : fix_date_field "date" d = .ok d :=
        fix_date_field_not_dt _ _ _ hdv hnot
      rw [this] at hfd
      injection hfd with hm1
      subst hm1
      rw [alget_alset_ne _ "attachments" "date" _ hda]
      exact hdv

/-- C7 witness: a mailbox entry with a datetime `last_message` gets it
replaced by its ISO string. -/
theorem timestamps_reshaped_witness :
    fix_mailbox_last_message
        (Value.vDict [("last_message", Value.vDt "2020-01-01T00:00:00")]) =
      .ok (Value.vDict
        (alset [("last_message", Value.vDt "2020-01-01T00:00:00")]
          "last_message" (Value.vStr "2020-01-01T00:00:00"))) :=
  timestamps_reshaped.1 [("last_message", Value.vDt "2020-01-01T00:00:00")]
    "2020-01-01T00:00:00" rfl

/-- C10: in the single-message response, an attachment without a
`filename` field is given the default name `file_{index}{ext}` — `ext`
guessed from the attachment's `type`, falling back to `.bin` — and every
attachment, named or defaulted, is given a `url` field of the form
`/api/mail/{mail_id}/attachment/{index}/{filename}`. -/
theorem attachment_naming :
    (∀ (mail_id : String) (guess : String → Option String) (d : DictV)
        (ts : String) (idx : Value),
        alget d "filename" = none →
        alget d "type" = some (.vStr ts) →
        alget d "index" = some idx →
        fix_attachment mail_id guess (.vDict d) =
          .ok (.vDict (alset
            (alset d "filename" (.vStr ("file_" ++ idx.pyStr ++
              (match guess ts with
               | some e => if e = "" then ".bin" else e
               | none => ".bin"))))
            "url"
            (.vStr ("/api/mail/" ++ mail_id ++ "/attachment/" ++
              idx.pyStr ++ "/" ++ ("file_" ++ idx.pyStr ++
                (match guess ts with
                 | some e => if e = "" then ".bin" else e
                 | none => ".bin"))))))) ∧
    (∀ (mail_id : String) (guess : String → Option String) (d : DictV)
        (fn : String) (idx : Value),
        alget d "filename" = some (.vStr fn) → fn ≠ "" →
        alget d "index" = some idx →
        fix_attachment mail_id guess (.vDict d) =
          .ok (.vDict (alset d "url"
            (.vStr ("/api/mail/" ++ mail_id ++ "/attachment/" ++
              idx.pyStr ++ "/" ++ fn))))) := by
  constructor
  · intro mail_id guess d ts idx h1 h2 h3
    have hfi : ("index" : String) ≠ "filename" := by simp
    simp [fix_attachment, h1, h2, h3, getItem, exceptBind_ok,
      alget_alset_self, alget_alset_ne _ "filename" "index" _ hfi,
      Value.pyStr]
  · intro mail_id guess d fn idx h1 hfn h3
    simp [fix_attachment, h1, h3, hfn, Value.truthy, getItem,
      exceptBind_ok, Value.pyStr]

/-- C10 witness: a concrete attachment with no `filename`, a `type` for
which no extension can be guessed (so `.bin` is used), and index `0`. -/
theorem attachment_naming_witness :
    fix_attachment "id7" (fun _ => none)
        (Value.vDict
          [("type", Value.vStr "application/x-unknown"),
           ("index", Value.vInt 0)]) =
      .ok (Value.vDict (alset
        (alset [("type", Value.vStr "application/x-unknown"),
                ("index", Value.vInt 0)]
          "filename" (Value.vStr ("file_" ++ (Value.vInt 0).pyStr ++ ".bin")))
        "url"
        (Value.vStr ("/api/mail/" ++ "id7" ++ "/attachment/" ++
          (Value.vInt 0).pyStr ++ "/" ++
          ("file_" ++ (Value.vInt 0).pyStr ++ ".bin"))))) :=
  attachment_naming.1 "id7" (fun _ => none)
    [("type", Value.vStr "application/x-unknown"), ("index", Value.vInt 0)]
    "application/x-unknown" (Value.vInt 0) rfl rfl rfl

end Byemail
